import Mathlib

/-!
Verification development for the Bambu Lab print logger
(`src/Print-logger.py`, class `BambuLocalAPILogger`).

The Python program is shallowly embedded as follows:

* JSON-shaped Python values (the raw status snapshots) are modelled by the
  inductive type `PyVal`; Python floats are modelled as exact rationals,
  wall-clock timestamps as natural-number epoch seconds.
* Python operations used by the source (`in`, subscripting, `dict.get`,
  `len`, list indexing with negative indices, `int()`, `float()`,
  truthiness) are modelled as total Lean functions returning
  `Except PyErr _` where the Python operation can raise.
* The extraction helpers `safe_get_numeric`, `safe_get_string`,
  `extract_filament_info` and `extract_print_data` are translated
  line by line, with `try`/`except` blocks rendered as handling of the
  `Except` error component.
* The stateful lifecycle logic of `process_status_update`,
  `start_print_tracking` and `end_print_tracking` is rendered as a pure
  step function on an explicit `LoggerState`, returning the list of
  emitted lifecycle events (start / progress / end) of that tick.

Known abstractions (none is load-bearing for the theorems below):
`float` arithmetic is exact rational arithmetic; `str()` of floats and of
containers has a simplified rendering; `float()` of strings accepts only
the plain decimal forms.
-/

namespace BambuLogger

/-- Python exception kinds that the modelled code can raise. -/
inductive PyErr where
  | typeError
  | valueError
  | keyError
  | indexError
  | attributeError

/-- A JSON-shaped Python value, as delivered by `response.json()`. -/
inductive PyVal where
  | vNone : PyVal
  | vBool : Bool → PyVal
  | vInt : Int → PyVal
  | vFloat : ℚ → PyVal
  | vStr : String → PyVal
  | vList : List PyVal → PyVal
  | vDict : List (String × PyVal) → PyVal

/-- First-match lookup in a dict (Python dicts have unique keys, so the
first match is the value of the key). -/
def dictLookup (es : List (String × PyVal)) (k : String) : Option PyVal :=
  match es with
  | [] => Option.none
  | (a, v) :: rest => if a = k then some v else dictLookup rest k

/-- Python truthiness (`bool(x)`). -/
def pyTruthy : PyVal → Bool
  | .vNone => false
  | .vBool b => b
  | .vInt n => n != 0
  | .vFloat q => q != 0
  | .vStr s => s != ""
  | .vList xs => !xs.isEmpty
  | .vDict es => !es.isEmpty

/-- Python substring test (`needle in hay` for strings). -/
def strContains (hay needle : String) : Bool :=
  (List.range (hay.length + 1)).any (fun i => needle.toList.isPrefixOf (hay.toList.drop i))

/-- Python `x == s` where `s` is a string literal: strings compare by
content, any other type compares unequal. -/
def pyEqStr (v : PyVal) (s : String) : Bool :=
  match v with
  | .vStr t => t == s
  | _ => false

/-- Python `key in data` for a string key: key membership on dicts,
substring test on strings, element equality on lists, `TypeError`
otherwise. -/
def pyContains (data : PyVal) (key : String) : Except PyErr Bool :=
  match data with
  | .vDict es => .ok (dictLookup es key).isSome
  | .vStr s => .ok (strContains s key)
  | .vList xs => .ok (xs.any (fun v => pyEqStr v key))
  | _ => .error .typeError

/-- Python `data[key]` for a string key: dict lookup (`KeyError` when
missing), `TypeError` on any other receiver. -/
def pyGetItem (data : PyVal) (key : String) : Except PyErr PyVal :=
  match data with
  | .vDict es =>
    match dictLookup es key with
    | some v => .ok v
    | Option.none => .error .keyError
  | _ => .error .typeError

/-- Python `data.get(key, default)`: defined only on dicts
(`AttributeError` otherwise). -/
def dictGet (data : PyVal) (key : String) (default : PyVal) : Except PyErr PyVal :=
  match data with
  | .vDict es => .ok ((dictLookup es key).getD default)
  | _ => .error .attributeError

/-- Python `len`. -/
def pyLen : PyVal → Except PyErr Nat
  | .vStr s => .ok s.length
  | .vList xs => .ok xs.length
  | .vDict es => .ok es.length
  | _ => .error .typeError

/-- Python sequence indexing `data[i]` with an integer index, including
the negative-index-from-the-end convention and `IndexError` out of
bounds. -/
def pyIndex (data : PyVal) (i : Int) : Except PyErr PyVal :=
  match data with
  | .vList xs =>
    if 0 ≤ i ∧ i < (xs.length : Int) then .ok (xs.getD i.toNat .vNone)
    else if -(xs.length : Int) ≤ i ∧ i < 0 then .ok (xs.getD (i + xs.length).toNat .vNone)
    else .error .indexError
  | .vStr s =>
    if 0 ≤ i ∧ i < (s.length : Int) then .ok (.vStr (String.singleton (s.toList.getD i.toNat ' ')))
    else if -(s.length : Int) ≤ i ∧ i < 0 then
      .ok (.vStr (String.singleton (s.toList.getD (i + s.length).toNat ' ')))
    else .error .indexError
  | _ => .error .typeError

/-- Value of a decimal digit string. -/
def digitsToNat (cs : List Char) : Nat :=
  cs.foldl (fun a c => a * 10 + (c.toNat - 48)) 0

/-- Surrounding-whitespace removal on a character list (the `strip`
Python's numeric parsers apply). -/
def trimChars (cs : List Char) : List Char :=
  ((cs.dropWhile Char.isWhitespace).reverse.dropWhile Char.isWhitespace).reverse

/-- Python `int(s)` on a string: optional surrounding whitespace, optional
sign, decimal digits. -/
def parseIntStr (s : String) : Option Int :=
  match trimChars s.toList with
  | [] => Option.none
  | c :: rest =>
    if c = '-' then
      if rest ≠ [] ∧ rest.all Char.isDigit then some (-(digitsToNat rest : Int)) else Option.none
    else if c = '+' then
      if rest ≠ [] ∧ rest.all Char.isDigit then some ((digitsToNat rest : Int)) else Option.none
    else if (c :: rest).all Char.isDigit then some ((digitsToNat (c :: rest) : Int))
    else Option.none

/-- Python `float(s)` on a string, restricted to plain decimal forms
`[sign] digits [. digits]` (exponent and special forms are out of the
model; every caller in the source swallows the parse failure anyway). -/
def parseFloatStr (s : String) : Option ℚ :=
  let t := trimChars s.toList
  let sign : ℚ := match t with | '-' :: _ => -1 | _ => 1
  let body : List Char := match t with | '-' :: rest => rest | '+' :: rest => rest | _ => t
  let ip := body.takeWhile (fun c => c != '.')
  match body.drop ip.length with
  | [] =>
    if ip ≠ [] ∧ ip.all Char.isDigit then some (sign * (digitsToNat ip : ℚ))
    else Option.none
  | '.' :: fp =>
    if (ip ≠ [] ∨ fp ≠ []) ∧ ip.all Char.isDigit ∧ fp.all Char.isDigit then
      some (sign * ((digitsToNat ip : ℚ) + (digitsToNat fp : ℚ) / ((10 : ℚ) ^ fp.length)))
    else Option.none
  | _ => Option.none

/-- Truncation toward zero, the behaviour of Python `int()` applied to a
float. -/
def pyTrunc (q : ℚ) : Int := if 0 ≤ q then ⌊q⌋ else -⌊-q⌋

/-- Python `float(x)`: identity-like on numbers, string parsing, and
`TypeError` on non-numeric non-string values. -/
def pyFloat : PyVal → Except PyErr ℚ
  | .vInt n => .ok (n : ℚ)
  | .vFloat q => .ok q
  | .vBool b => .ok (if b then 1 else 0)
  | .vStr s =>
    match parseFloatStr s with
    | some q => .ok q
    | Option.none => .error .valueError
  | _ => .error .typeError

/-- Python `int(x)`: ints and bools pass through, floats truncate toward
zero, strings parse, everything else is a `TypeError`. -/
def pyIntOf : PyVal → Except PyErr Int
  | .vInt n => .ok n
  | .vBool b => .ok (if b then 1 else 0)
  | .vFloat q => .ok (pyTrunc q)
  | .vStr s =>
    match parseIntStr s with
    | some n => .ok n
    | Option.none => .error .valueError
  | _ => .error .typeError

/-- A single-quote character, used when rendering Python `repr` of
strings. -/
def quoteCh : String := String.singleton (Char.ofNat 39)

mutual

/-- Python `repr`, simplified: exact for None/bools/ints/strings, a
rational rendering for floats, recursive for containers. -/
def pyRepr : PyVal → String
  | .vNone => "None"
  | .vBool true => "True"
  | .vBool false => "False"
  | .vInt n => toString n
  | .vFloat q => toString q
  | .vStr s => quoteCh ++ s ++ quoteCh
  | .vList xs => "[" ++ pyReprSeq xs ++ "]"
  | .vDict es => "\x7b" ++ pyReprEntries es ++ "\x7d"

/-- Comma-separated `repr` of list elements. -/
def pyReprSeq : List PyVal → String
  | [] => ""
  | [x] => pyRepr x
  | x :: xs => pyRepr x ++ ", " ++ pyReprSeq xs

/-- Comma-separated `repr` of dict entries. -/
def pyReprEntries : List (String × PyVal) → String
  | [] => ""
  | [(k, v)] => quoteCh ++ k ++ quoteCh ++ ": " ++ pyRepr v
  | (k, v) :: es => quoteCh ++ k ++ quoteCh ++ ": " ++ pyRepr v ++ ", " ++ pyReprEntries es

end

/-- Python `str(x)`: the string itself for strings, `repr` otherwise. -/
def pyStr : PyVal → String
  | .vStr s => s
  | v => pyRepr v

/-- `safe_get_numeric` (src/Print-logger.py lines 214-222): probe the keys
in order; a raised `TypeError` of the `in` test propagates, while
`float()` conversion failures (`ValueError`/`TypeError`, including the
`TypeError` of subscripting a string or list receiver) fall through to
the next candidate key; the default is returned when no key yields a
number. -/
def safe_get_numeric (data : PyVal) : List String → ℚ → Except PyErr ℚ
  | [], default => .ok default
  | key :: rest, default =>
    match pyContains data key with
    | .error e => .error e
    | .ok false => safe_get_numeric data rest default
    | .ok true =>
      match pyGetItem data key with
      | .error _ => safe_get_numeric data rest default
      | .ok v =>
        match pyFloat v with
        | .ok q => .ok q
        | .error _ => safe_get_numeric data rest default

/-- `safe_get_string` (src/Print-logger.py lines 224-229): probe the keys
in order; a key whose value is present and truthy is returned as
`str(value)`; the subscript `data[key]` is outside any `try`, so its
`TypeError` (string or list receiver) propagates. -/
def safe_get_string (data : PyVal) : List String → String → Except PyErr String
  | [], default => .ok default
  | key :: rest, default =>
    match pyContains data key with
    | .error e => .error e
    | .ok false => safe_get_string data rest default
    | .ok true =>
      match pyGetItem data key with
      | .error e => .error e
      | .ok v => if pyTruthy v then .ok (pyStr v) else safe_get_string data rest default

/-- Body of `extract_filament_info` (src/Print-logger.py lines 231-258)
before its enclosing `try`/`except`: direct filament field first, then
AMS bank/slot addressing with Python `//` (floor) and `%` (floor mod),
with the bare `except` around `int(current_tray)` rendered by the
`.error` arm returning `"Unknown"`. -/
def extract_filament_info_core (ams_data print_data : PyVal) : Except PyErr PyVal :=
  match safe_get_string print_data ["filament_type", "material", "filament"] "" with
  | .error e => .error e
  | .ok filament_direct =>
    if filament_direct ≠ "" then .ok (.vStr filament_direct)
    else
      match (if pyTruthy ams_data then pyContains ams_data "ams" else .ok false) with
      | .error e => .error e
      | .ok false => .ok (.vStr "Unknown")
      | .ok true =>
        match dictGet ams_data "tray_now" (.vStr "0") with
        | .error e => .error e
        | .ok current_tray =>
          match pyIntOf current_tray with
          | .error _ => .ok (.vStr "Unknown")
          | .ok tray_num =>
            let ams_index : Int := Int.fdiv tray_num 4
            let tray_index : Int := Int.fmod tray_num 4
            match dictGet ams_data "ams" (.vList []) with
            | .error e => .error e
            | .ok ams_list =>
              match pyLen ams_list with
              | .error e => .error e
              | .ok nBanks =>
                if ams_index < (nBanks : Int) then
                  match pyIndex ams_list ams_index with
                  | .error e => .error e
                  | .ok bank =>
                    match dictGet bank "tray" (.vList []) with
                    | .error e => .error e
                    | .ok trays =>
                      match pyLen trays with
                      | .error e => .error e
                      | .ok nTrays =>
                        if tray_index < (nTrays : Int) then
                          match pyIndex trays tray_index with
                          | .error e => .error e
                          | .ok tray => dictGet tray "tray_type" (.vStr "Unknown")
                        else .ok (.vStr "Unknown")
                else .ok (.vStr "Unknown")

/-- `extract_filament_info` (src/Print-logger.py lines 231-258): the whole
body is wrapped in `try: ... except Exception: return "Unknown"`. -/
def extract_filament_info (ams_data print_data : PyVal) : PyVal :=
  match extract_filament_info_core ams_data print_data with
  | .ok v => v
  | .error _ => .vStr "Unknown"

/-- The canonical record produced by `extract_print_data`: one field per
entry of the `extracted` dict in the source. Numeric fields are the raw
`float()` results; `filament_type` is whatever value filament resolution
produced (the source does not force it to a string). -/
structure Extracted where
  progress : ℚ
  state : String
  gcode_file : String
  bed_temp : ℚ
  nozzle_temp : ℚ
  remaining_time : ℚ
  start_time : ℚ
  filament_type : PyVal

/-- `extract_print_data` (src/Print-logger.py lines 189-212): falsy input
returns the empty dict (modelled as `Option.none`); otherwise the
`print`-scoped sub-structure (or the payload itself) is probed field by
field. `status_data.get` and `print_data.get('ams', ...)` require dict
receivers and otherwise raise `AttributeError`, which nothing in the
source catches. -/
def extract_print_data (status_data : PyVal) : Except PyErr (Option Extracted) :=
  if pyTruthy status_data = false then .ok Option.none
  else
    match dictGet status_data "print" status_data with
    | .error e => .error e
    | .ok print_data =>
    match safe_get_numeric print_data ["mc_percent", "progress", "percent"] 0 with
    | .error e => .error e
    | .ok progress =>
    match safe_get_string print_data ["gcode_state", "state", "status"] "" with
    | .error e => .error e
    | .ok state =>
    match safe_get_string print_data ["gcode_file", "filename", "file"] "" with
    | .error e => .error e
    | .ok gfile =>
    match safe_get_numeric print_data ["bed_temper", "bed_temp", "bed_temperature"] 0 with
    | .error e => .error e
    | .ok bed =>
    match safe_get_numeric print_data ["nozzle_temper", "nozzle_temp", "nozzle_temperature"] 0 with
    | .error e => .error e
    | .ok nozzle =>
    match safe_get_numeric print_data ["mc_remaining_time", "remaining_time", "time_remaining"] 0 with
    | .error e => .error e
    | .ok remaining =>
    match safe_get_numeric print_data ["gcode_start_time", "start_time", "print_start_time"] 0 with
    | .error e => .error e
    | .ok stime =>
    match dictGet print_data "ams" (.vDict []) with
    | .error e => .error e
    | .ok ams_data =>
      .ok (some { progress := progress, state := state, gcode_file := gfile,
                  bed_temp := bed, nozzle_temp := nozzle, remaining_time := remaining,
                  start_time := stime,
                  filament_type := extract_filament_info ams_data print_data })

/-! ## Lifecycle reducer -/

/-- The per-tick view that `process_status_update`
(src/Print-logger.py lines 425-469) computes from the extracted dict
before branching: `int()`-truncated progress, upper-cased state string,
and the remaining fields as read with their defaults. -/
structure PrintData where
  progress : Int
  state : String
  gcode_file : String
  bed_temp : ℚ
  nozzle_temp : ℚ
  remaining_time : Int
  filament_type : PyVal
  start_time : Int

/-- The mutable tracking state of `BambuLocalAPILogger` (the `__init__`
fields that `process_status_update`, `start_print_tracking` and
`end_print_tracking` read or write). Timestamps are epoch seconds. -/
structure LoggerState where
  print_start_time : Option Nat
  current_gcode_file : String
  is_printing : Bool
  last_progress : Int
  print_start_gcode_time : Int
  bed_temp : ℚ
  nozzle_temp : ℚ
  current_filament_type : PyVal

/-- The `PrintLog` dataclass (src/Print-logger.py lines 25-37), with the
two `strftime` timestamps modelled as the underlying epoch seconds. -/
structure PrintLog where
  start_time : Nat
  end_time : Nat
  print_duration : String
  duration_minutes : Int
  gcode_file : String
  filament_type : PyVal
  filament_used_grams : ℚ
  notes : String
  bed_temp : ℚ
  nozzle_temp : ℚ

/-- The lifecycle events one processed tick can emit: the `PRINT STARTED`
banner of `start_print_tracking`, the progress line of
`update_progress`, and the `PRINT COMPLETED`/`PRINT FAILED` record of
`end_print_tracking`. -/
inductive Event where
  | startEv (gcode_file : String) (filament : PyVal) (timestamp : Nat)
  | progressEv (percent : Int) (remaining : Int) (filament : PyVal)
  | endEv (failed : Bool) (timestamp : Nat) (log : PrintLog)

/-- The initial tracking state set up in `__init__`
(src/Print-logger.py lines 58-67). -/
def initState : LoggerState :=
  { print_start_time := Option.none, current_gcode_file := "", is_printing := false,
    last_progress := 0, print_start_gcode_time := 0, bed_temp := 0, nozzle_temp := 0,
    current_filament_type := .vStr "" }

/-- `os.path.basename`: the final `/`-separated path component. -/
def basename (p : String) : String :=
  match (p.splitOn "/").getLast? with
  | some s => s
  | Option.none => p

/-- `format_duration` (src/Print-logger.py lines 346-353), with Python
`//` and `%` as floor division and floor modulus. -/
def format_duration (minutes : Int) : String :=
  let hours := Int.fdiv minutes 60
  let mins := Int.fmod minutes 60
  if hours > 0 then toString hours ++ "h " ++ toString mins ++ "m"
  else toString mins ++ "m"

/-- `estimate_filament_usage` (src/Print-logger.py lines 341-344): the
fixed 10 g/hour heuristic. -/
def estimate_filament_usage (duration_minutes : Int) : ℚ :=
  ((duration_minutes : ℚ) / 60) * 10

/-- `start_print_tracking` (src/Print-logger.py lines 273-287): arm the
session and emit the start banner. -/
def start_print_tracking (s : LoggerState) (now : Nat) (gcode_file : String)
    (gcode_start_time : Int) (filament : PyVal) : LoggerState × List Event :=
  ({ s with is_printing := true, print_start_time := some now,
            current_gcode_file := gcode_file, current_filament_type := filament,
            print_start_gcode_time := gcode_start_time },
   [Event.startEv gcode_file filament now])

/-- The `PrintLog` row built inside `end_print_tracking`
(src/Print-logger.py lines 302-329): duration in integer minutes is
`int(total_seconds / 60)` (truncation toward zero), the file name is
reduced to its basename with `"Unknown"` for an empty one, a falsy
filament value is logged as `"Unknown"`, and the notes field is the
`FAILED PRINT` marker exactly for failed ends. -/
def mkPrintLog (s : LoggerState) (st now : Nat) (failed : Bool) : PrintLog :=
  let duration_minutes : Int := pyTrunc (((now : ℚ) - (st : ℚ)) / 60)
  { start_time := st, end_time := now,
    print_duration := format_duration duration_minutes,
    duration_minutes := duration_minutes,
    gcode_file := if s.current_gcode_file = "" then "Unknown"
                  else basename s.current_gcode_file,
    filament_type := if pyTruthy s.current_filament_type then s.current_filament_type
                     else .vStr "Unknown",
    filament_used_grams := estimate_filament_usage duration_minutes,
    notes := if failed then "FAILED PRINT" else "",
    bed_temp := s.bed_temp, nozzle_temp := s.nozzle_temp }

/-- `end_print_tracking` (src/Print-logger.py lines 296-339): a no-op
unless a session is armed with a start time
(`if not self.is_printing or not self.print_start_time: return`);
otherwise build the `PrintLog` row, clear `is_printing` (the start time
is left in place, as in the source) and emit the end record. -/
def end_print_tracking (s : LoggerState) (now : Nat) (failed : Bool) :
    LoggerState × List Event :=
  match s.print_start_time with
  | Option.none => (s, [])
  | some st =>
    if s.is_printing = false then (s, [])
    else ({ s with is_printing := false }, [Event.endEv failed now (mkPrintLog s st now failed)])

/-- Lines 438-440 of `process_status_update`: the temperature fields are
copied into the tracker before any branching. -/
def updateTemps (s : LoggerState) (pd : PrintData) : LoggerState :=
  { s with bed_temp := pd.bed_temp, nozzle_temp := pd.nozzle_temp }

/-- The `if`/`elif` pair of `process_status_update`
(src/Print-logger.py lines 448-455): the start check
(`not is_printing and state in ['RUNNING', 'PRINTING'] and progress > 0`)
and, only when it did not fire, the end check
(`is_printing and (progress >= 100 or state in
['FINISH', 'FINISHED', 'FAILED', 'PAUSED', 'STOPPED'])`) with
`failed = state in ['FAILED', 'STOPPED']`. -/
def phase1 (s : LoggerState) (now : Nat) (pd : PrintData) : LoggerState × List Event :=
  if s.is_printing = false ∧ (pd.state = "RUNNING" ∨ pd.state = "PRINTING") ∧ pd.progress > 0 then
    start_print_tracking s now pd.gcode_file pd.start_time pd.filament_type
  else if s.is_printing = true ∧ (pd.progress ≥ 100 ∨
      pd.state ∈ (["FINISH", "FINISHED", "FAILED", "PAUSED", "STOPPED"] : List String)) then
    end_print_tracking s now (decide (pd.state = "FAILED" ∨ pd.state = "STOPPED"))
  else (s, [])

/-- Lines 457-460 of `process_status_update`: while printing, a changed
progress value is displayed and remembered. -/
def phase2 (s : LoggerState) (pd : PrintData) : LoggerState × List Event :=
  if s.is_printing = true ∧ pd.progress ≠ s.last_progress then
    ({ s with last_progress := pd.progress },
     [Event.progressEv pd.progress pd.remaining_time s.current_filament_type])
  else (s, [])

/-- Lines 462-464 of `process_status_update`: a filament reading other
than `"Unknown"` overwrites the remembered filament type. -/
def phase3 (s : LoggerState) (pd : PrintData) : LoggerState :=
  if pyEqStr pd.filament_type "Unknown" = false then
    { s with current_filament_type := pd.filament_type }
  else s

/-- One processed tick of `process_status_update`
(src/Print-logger.py lines 425-469) on an already-coerced record:
temperatures, then the start/end branch, then the progress branch, then
the filament update, returning the emitted events in order. -/
def processRecord (s : LoggerState) (now : Nat) (pd : PrintData) : LoggerState × List Event :=
  let s1 := updateTemps s pd
  let r1 := phase1 s1 now pd
  let r2 := phase2 r1.1 pd
  (phase3 r2.1 pd, r1.2 ++ r2.2)

/-- Lines 429-436 of `process_status_update`: the local-variable reads
from the extracted dict, with their defaults for the empty dict
(`Option.none`) and the `int()` / `.upper()` coercions. -/
def toPrintData : Option Extracted → PrintData
  | Option.none =>
    { progress := 0, state := "", gcode_file := "", bed_temp := 0, nozzle_temp := 0,
      remaining_time := 0, filament_type := .vStr "Unknown", start_time := 0 }
  | some e =>
    { progress := pyTrunc e.progress, state := e.state.toUpper, gcode_file := e.gcode_file,
      bed_temp := e.bed_temp, nozzle_temp := e.nozzle_temp,
      remaining_time := pyTrunc e.remaining_time, filament_type := e.filament_type,
      start_time := pyTrunc e.start_time }

/-- `process_status_update` on a raw snapshot: extraction (which can
raise) followed by the reducer tick. -/
def process_status_update (s : LoggerState) (now : Nat) (raw : PyVal) :
    Except PyErr (LoggerState × List Event) :=
  match extract_print_data raw with
  | .error e => .error e
  | .ok o => .ok (processRecord s now (toPrintData o))

/-- Folding a sequence of (wall-clock, record) ticks through the reducer
from a given state. -/
def runSteps (s : LoggerState) (recs : List (Nat × PrintData)) : LoggerState :=
  recs.foldl (fun st r => (processRecord st r.1 r.2).1) s

/-- Recognizer for start events. -/
def isStartEv : Event → Bool
  | .startEv _ _ _ => true
  | _ => false

/-- Recognizer for progress events. -/
def isProgressEv : Event → Bool
  | .progressEv _ _ _ => true
  | _ => false

/-- Recognizer for end events. -/
def isEndEv : Event → Bool
  | .endEv _ _ _ => true
  | _ => false

/-- Number of start events in an emitted batch. -/
def countStart (evs : List Event) : Nat := (evs.filter isStartEv).length

/-- Number of progress events in an emitted batch. -/
def countProgress (evs : List Event) : Nat := (evs.filter isProgressEv).length

/-- Number of end events in an emitted batch. -/
def countEnd (evs : List Event) : Nat := (evs.filter isEndEv).length

/-- The `failed` classifications of the end events in an emitted batch
(`true` = FAILED, `false` = COMPLETED). -/
def endFlags (evs : List Event) : List Bool :=
  evs.filterMap (fun e => match e with | .endEv f _ _ => some f | _ => Option.none)

/-- The `PrintLog` rows carried by the end events in an emitted batch. -/
def endLogs (evs : List Event) : List PrintLog :=
  evs.filterMap (fun e => match e with | .endEv _ _ L => some L | _ => Option.none)

/-- The canonical state vocabulary of the specification:
IDLE, RUNNING, FINISHED, FAILED, PAUSED, STOPPED, UNKNOWN. -/
def canonVocab : List String :=
  ["IDLE", "RUNNING", "FINISHED", "FAILED", "PAUSED", "STOPPED", "UNKNOWN"]

/-- The invariant relating the two session fields: whenever a session is
flagged active, its wall-clock start time is set. -/
def sessionInv (s : LoggerState) : Prop :=
  s.is_printing = true → s.print_start_time.isSome = true

/-! ## Concrete sample values used by counterexamples and witnesses -/

/-- A reducer state with an active session started at epoch second 1000. -/
def sActive : LoggerState :=
  { print_start_time := some 1000, current_gcode_file := "m.gcode", is_printing := true,
    last_progress := 40, print_start_gcode_time := 0, bed_temp := 60, nozzle_temp := 220,
    current_filament_type := .vStr "PLA" }

/-- A canonical record reporting a paused print at 50 percent. -/
def pdPaused : PrintData :=
  { progress := 50, state := "PAUSED", gcode_file := "m.gcode", bed_temp := 60,
    nozzle_temp := 220, remaining_time := 30, filament_type := .vStr "PLA", start_time := 0 }

/-- A canonical record reporting a failed print at 100 percent. -/
def pdFail100 : PrintData :=
  { progress := 100, state := "FAILED", gcode_file := "m.gcode", bed_temp := 60,
    nozzle_temp := 220, remaining_time := 0, filament_type := .vStr "PLA", start_time := 0 }

/-- A canonical record reporting a running print at 1 percent. -/
def pdRun : PrintData :=
  { progress := 1, state := "RUNNING", gcode_file := "m.gcode", bed_temp := 60,
    nozzle_temp := 220, remaining_time := 120, filament_type := .vStr "PLA", start_time := 0 }

/-- A canonical record reporting a running print at 100 percent. -/
def pdRun100 : PrintData :=
  { pdRun with progress := 100 }

/-- A canonical record reporting a running print at 41 percent. -/
def pdRun41 : PrintData :=
  { pdRun with progress := 41 }

/-- An AMS snapshot whose active tray index is the string `"-1"`, with a
single bank of four declared trays. -/
def amsNeg : PyVal :=
  .vDict [("tray_now", .vStr "-1"),
          ("ams", .vList [ .vDict [("tray", .vList [
             .vDict [("tray_type", .vStr "B0S0")],
             .vDict [("tray_type", .vStr "B0S1")],
             .vDict [("tray_type", .vStr "B0S2")],
             .vDict [("tray_type", .vStr "B0S3")]])]])]

/-- An AMS snapshot with active tray index `"6"` and two banks of four
declared trays each. -/
def amsTwoBanks : PyVal :=
  .vDict [("tray_now", .vStr "6"),
          ("ams", .vList [
            .vDict [("tray", .vList [
               .vDict [("tray_type", .vStr "B0S0")],
               .vDict [("tray_type", .vStr "B0S1")],
               .vDict [("tray_type", .vStr "B0S2")],
               .vDict [("tray_type", .vStr "B0S3")]])],
            .vDict [("tray", .vList [
               .vDict [("tray_type", .vStr "B1S0")],
               .vDict [("tray_type", .vStr "B1S1")],
               .vDict [("tray_type", .vStr "B1S2")],
               .vDict [("tray_type", .vStr "B1S3")]])]])]

/-- An AMS snapshot with active tray index `"99"` but only one bank. -/
def amsTray99 : PyVal :=
  .vDict [("tray_now", .vStr "99"),
          ("ams", .vList [ .vDict [("tray", .vList [
             .vDict [("tray_type", .vStr "B0S0")]])]])]

/-- An AMS snapshot whose active tray index is not numeric. -/
def amsBadTray : PyVal :=
  .vDict [("tray_now", .vStr "abc"),
          ("ams", .vList [ .vDict [("tray", .vList [
             .vDict [("tray_type", .vStr "B0S0")]])]])]

/-- A print-data payload carrying a direct filament field. -/
def pdDirectFilament : PyVal :=
  .vDict [("filament_type", .vStr "PETG")]

/-! ## Structural lemmas -/

theorem updateTemps_is_printing (s : LoggerState) (pd : PrintData) :
    (updateTemps s pd).is_printing = s.is_printing := rfl

theorem updateTemps_start_time (s : LoggerState) (pd : PrintData) :
    (updateTemps s pd).print_start_time = s.print_start_time := rfl

theorem updateTemps_last_progress (s : LoggerState) (pd : PrintData) :
    (updateTemps s pd).last_progress = s.last_progress := rfl

theorem end_print_tracking_no_op (s : LoggerState) (now : Nat) (f : Bool)
    (h : s.is_printing = false) : end_print_tracking s now f = (s, []) := by
  unfold end_print_tracking
  split
  · rfl
  · rw [if_pos h]

theorem end_print_tracking_fires (s : LoggerState) (now : Nat) (f : Bool) (st : Nat)
    (hact : s.is_printing = true) (hst : s.print_start_time = some st) :
    end_print_tracking s now f =
      ({ s with is_printing := false }, [Event.endEv f now (mkPrintLog s st now f)]) := by
  unfold end_print_tracking
  rw [hst]
  simp [hact]

theorem countStart_end_print_tracking (s : LoggerState) (now : Nat) (f : Bool) :
    countStart (end_print_tracking s now f).2 = 0 := by
  unfold end_print_tracking
  split
  · rfl
  · split <;> rfl

theorem countProgress_end_print_tracking (s : LoggerState) (now : Nat) (f : Bool) :
    countProgress (end_print_tracking s now f).2 = 0 := by
  unfold end_print_tracking
  split
  · rfl
  · split <;> rfl

theorem end_print_tracking_last_progress (s : LoggerState) (now : Nat) (f : Bool) :
    (end_print_tracking s now f).1.last_progress = s.last_progress := by
  unfold end_print_tracking
  split
  · rfl
  · split <;> rfl

theorem phase1_of_start (s : LoggerState) (now : Nat) (pd : PrintData)
    (h : s.is_printing = false ∧ (pd.state = "RUNNING" ∨ pd.state = "PRINTING") ∧
      pd.progress > 0) :
    phase1 s now pd = start_print_tracking s now pd.gcode_file pd.start_time pd.filament_type := by
  unfold phase1
  rw [if_pos h]

theorem countStart_phase1_of_not_start (s : LoggerState) (now : Nat) (pd : PrintData)
    (h : ¬(s.is_printing = false ∧ (pd.state = "RUNNING" ∨ pd.state = "PRINTING") ∧
      pd.progress > 0)) :
    countStart (phase1 s now pd).2 = 0 := by
  unfold phase1
  rw [if_neg h]
  split
  · exact countStart_end_print_tracking _ _ _
  · rfl

theorem countProgress_phase1 (s : LoggerState) (now : Nat) (pd : PrintData) :
    countProgress (phase1 s now pd).2 = 0 := by
  unfold phase1
  split
  · rfl
  · split
    · exact countProgress_end_print_tracking _ _ _
    · rfl

theorem phase1_last_progress (s : LoggerState) (now : Nat) (pd : PrintData) :
    (phase1 s now pd).1.last_progress = s.last_progress := by
  unfold phase1
  split
  · rfl
  · split
    · exact end_print_tracking_last_progress _ _ _
    · rfl

theorem phase2_is_printing (s : LoggerState) (pd : PrintData) :
    (phase2 s pd).1.is_printing = s.is_printing := by
  unfold phase2
  split <;> rfl

theorem phase2_start_time (s : LoggerState) (pd : PrintData) :
    (phase2 s pd).1.print_start_time = s.print_start_time := by
  unfold phase2
  split <;> rfl

theorem countStart_phase2 (s : LoggerState) (pd : PrintData) :
    countStart (phase2 s pd).2 = 0 := by
  unfold phase2
  split <;> rfl

theorem countEnd_phase2 (s : LoggerState) (pd : PrintData) :
    countEnd (phase2 s pd).2 = 0 := by
  unfold phase2
  split <;> rfl

theorem endFlags_phase2 (s : LoggerState) (pd : PrintData) :
    endFlags (phase2 s pd).2 = [] := by
  unfold phase2
  split <;> rfl

theorem endLogs_phase2 (s : LoggerState) (pd : PrintData) :
    endLogs (phase2 s pd).2 = [] := by
  unfold phase2
  split <;> rfl

theorem countProgress_phase2 (s : LoggerState) (pd : PrintData) :
    countProgress (phase2 s pd).2 =
      if s.is_printing = true ∧ pd.progress ≠ s.last_progress then 1 else 0 := by
  unfold phase2
  split_ifs <;> rfl

theorem phase2_last_progress (s : LoggerState) (pd : PrintData) :
    (phase2 s pd).1.last_progress =
      if s.is_printing = true ∧ pd.progress ≠ s.last_progress then pd.progress
      else s.last_progress := by
  unfold phase2
  split_ifs <;> rfl

theorem phase3_is_printing (s : LoggerState) (pd : PrintData) :
    (phase3 s pd).is_printing = s.is_printing := by
  unfold phase3
  split <;> rfl

theorem phase3_start_time (s : LoggerState) (pd : PrintData) :
    (phase3 s pd).print_start_time = s.print_start_time := by
  unfold phase3
  split <;> rfl

theorem phase3_last_progress (s : LoggerState) (pd : PrintData) :
    (phase3 s pd).last_progress = s.last_progress := by
  unfold phase3
  split <;> rfl

theorem processRecord_fst (s : LoggerState) (now : Nat) (pd : PrintData) :
    (processRecord s now pd).1 =
      phase3 (phase2 (phase1 (updateTemps s pd) now pd).1 pd).1 pd := rfl

theorem processRecord_snd (s : LoggerState) (now : Nat) (pd : PrintData) :
    (processRecord s now pd).2 =
      (phase1 (updateTemps s pd) now pd).2 ++
        (phase2 (phase1 (updateTemps s pd) now pd).1 pd).2 := rfl

theorem countStart_append (a b : List Event) :
    countStart (a ++ b) = countStart a + countStart b := by
  simp [countStart, List.filter_append]

theorem countEnd_append (a b : List Event) :
    countEnd (a ++ b) = countEnd a + countEnd b := by
  simp [countEnd, List.filter_append]

theorem countProgress_append (a b : List Event) :
    countProgress (a ++ b) = countProgress a + countProgress b := by
  simp [countProgress, List.filter_append]

theorem endFlags_append (a b : List Event) :
    endFlags (a ++ b) = endFlags a ++ endFlags b := by
  simp [endFlags, List.filterMap_append]

theorem endLogs_append (a b : List Event) :
    endLogs (a ++ b) = endLogs a ++ endLogs b := by
  simp [endLogs, List.filterMap_append]

theorem processRecord_is_printing (s : LoggerState) (now : Nat) (pd : PrintData) :
    (processRecord s now pd).1.is_printing =
      (phase1 (updateTemps s pd) now pd).1.is_printing := by
  rw [processRecord_fst, phase3_is_printing, phase2_is_printing]

theorem processRecord_start_time (s : LoggerState) (now : Nat) (pd : PrintData) :
    (processRecord s now pd).1.print_start_time =
      (phase1 (updateTemps s pd) now pd).1.print_start_time := by
  rw [processRecord_fst, phase3_start_time, phase2_start_time]

theorem countProgress_processRecord (s : LoggerState) (now : Nat) (pd : PrintData) :
    countProgress (processRecord s now pd).2 =
      if (phase1 (updateTemps s pd) now pd).1.is_printing = true ∧
          pd.progress ≠ s.last_progress then 1 else 0 := by
  rw [processRecord_snd, countProgress_append, countProgress_phase1, countProgress_phase2,
    phase1_last_progress, updateTemps_last_progress]
  omega

theorem processRecord_last_progress (s : LoggerState) (now : Nat) (pd : PrintData) :
    (processRecord s now pd).1.last_progress =
      if (phase1 (updateTemps s pd) now pd).1.is_printing = true ∧
          pd.progress ≠ s.last_progress then pd.progress else s.last_progress := by
  rw [processRecord_fst, phase3_last_progress, phase2_last_progress,
    phase1_last_progress, updateTemps_last_progress]

theorem end_print_tracking_inv (s : LoggerState) (now : Nat) (f : Bool)
    (h : sessionInv s) : sessionInv (end_print_tracking s now f).1 := by
  unfold sessionInv at h ⊢
  unfold end_print_tracking
  cases hs : s.print_start_time with
  | none =>
    intro hP
    exact h hP
  | some st =>
    split_ifs with hip
    · intro _
      rw [hs]
      rfl
    · intro hP
      simp at hP

theorem sessionInv_phase1 (s : LoggerState) (now : Nat) (pd : PrintData)
    (h : sessionInv s) : sessionInv (phase1 s now pd).1 := by
  unfold phase1
  split_ifs with h1 h2
  · intro _
    rfl
  · exact end_print_tracking_inv s now _ h
  · exact h

theorem sessionInv_updateTemps (s : LoggerState) (pd : PrintData)
    (h : sessionInv s) : sessionInv (updateTemps s pd) := by
  unfold sessionInv at h ⊢
  rw [updateTemps_is_printing, updateTemps_start_time]
  exact h

theorem sessionInv_step (s : LoggerState) (now : Nat) (pd : PrintData)
    (h : sessionInv s) : sessionInv (processRecord s now pd).1 := by
  unfold sessionInv
  rw [processRecord_is_printing, processRecord_start_time]
  exact sessionInv_phase1 _ now pd (sessionInv_updateTemps s pd h)

theorem sessionInv_runSteps (recs : List (Nat × PrintData)) (s : LoggerState)
    (h : sessionInv s) : sessionInv (runSteps s recs) := by
  induction recs generalizing s with
  | nil => exact h
  | cons r rest ih => exact ih _ (sessionInv_step s r.1 r.2 h)

theorem safe_get_numeric_dict_ok (l : List (String × PyVal)) (ks : List String) (d : ℚ) :
    ∃ q, safe_get_numeric (.vDict l) ks d = .ok q := by
  induction ks with
  | nil => exact ⟨d, rfl⟩
  | cons k rest ih =>
    obtain ⟨q0, hq0⟩ := ih
    cases hlk : dictLookup l k with
    | none => exact ⟨q0, by simp [safe_get_numeric, pyContains, hlk, hq0]⟩
    | some v =>
      cases hf : pyFloat v with
      | error e => exact ⟨q0, by simp [safe_get_numeric, pyContains, pyGetItem, hlk, hf, hq0]⟩
      | ok q => exact ⟨q, by simp [safe_get_numeric, pyContains, pyGetItem, hlk, hf]⟩

theorem safe_get_string_dict_ok (l : List (String × PyVal)) (ks : List String) (d : String) :
    ∃ r, safe_get_string (.vDict l) ks d = .ok r := by
  induction ks with
  | nil => exact ⟨d, rfl⟩
  | cons k rest ih =>
    obtain ⟨r0, hr0⟩ := ih
    cases hlk : dictLookup l k with
    | none => exact ⟨r0, by simp [safe_get_string, pyContains, hlk, hr0]⟩
    | some v =>
      cases ht : pyTruthy v with
      | true => exact ⟨pyStr v, by simp [safe_get_string, pyContains, pyGetItem, hlk, ht]⟩
      | false => exact ⟨r0, by simp [safe_get_string, pyContains, pyGetItem, hlk, ht, hr0]⟩

/-! ## Claims -/

/-- C1, counterexample: the claim says a PAUSED record never ends an
active session, but `'PAUSED'` is in the end-condition list of
`process_status_update` (line 453): from the active state `sActive`, the
record `pdPaused` (state PAUSED, progress 50) emits one end event and
deactivates the session. -/
theorem C1_counterexample :
    countEnd (processRecord sActive 1090 pdPaused).2 = 1 ∧
    (processRecord sActive 1090 pdPaused).1.is_printing = false := ⟨rfl, rfl⟩

/-- C1, amended: while a session is active (with its start time set, as
in every reachable active state), a record with state PAUSED ends the
session: exactly one EndEvent is emitted, classified COMPLETED (PAUSED
is not in the FAILED/STOPPED set), and the session becomes inactive. -/
theorem C1_amended (s : LoggerState) (t0 now : Nat) (pd : PrintData)
    (hact : s.is_printing = true) (hst : s.print_start_time = some t0)
    (hp : pd.state = "PAUSED") :
    countEnd (processRecord s now pd).2 = 1 ∧
    endFlags (processRecord s now pd).2 = [false] ∧
    (processRecord s now pd).1.is_printing = false := by
  have h1 : (updateTemps s pd).is_printing = true := by
    rw [updateTemps_is_printing, hact]
  have hnostart : ¬((updateTemps s pd).is_printing = false ∧
      (pd.state = "RUNNING" ∨ pd.state = "PRINTING") ∧ pd.progress > 0) := by
    rw [h1]
    simp
  have hmem : pd.state ∈ (["FINISH", "FINISHED", "FAILED", "PAUSED", "STOPPED"] : List String) := by
    rw [hp]
    decide
  have hflag : decide (pd.state = "FAILED" ∨ pd.state = "STOPPED") = false := by
    rw [hp]
    decide
  have hp1 : phase1 (updateTemps s pd) now pd =
      ({ updateTemps s pd with is_printing := false },
       [Event.endEv (decide (pd.state = "FAILED" ∨ pd.state = "STOPPED")) now
         (mkPrintLog (updateTemps s pd) t0 now
           (decide (pd.state = "FAILED" ∨ pd.state = "STOPPED")))]) := by
    unfold phase1
    rw [if_neg hnostart, if_pos ⟨h1, Or.inr hmem⟩]
    exact end_print_tracking_fires _ now _ t0 h1 (by rw [updateTemps_start_time, hst])
  refine ⟨?_, ?_, ?_⟩
  · rw [processRecord_snd, countEnd_append, hp1, countEnd_phase2]
    rfl
  · rw [processRecord_snd, endFlags_append, hp1, endFlags_phase2, hflag]
    rfl
  · rw [processRecord_is_printing, hp1]

/-- C1, witness: the amended statement at the concrete active state and
PAUSED record. -/
theorem C1_witness :
    countEnd (processRecord sActive 1090 pdPaused).2 = 1 ∧
    endFlags (processRecord sActive 1090 pdPaused).2 = [false] ∧
    (processRecord sActive 1090 pdPaused).1.is_printing = false :=
  C1_amended sActive 1000 1090 pdPaused rfl rfl rfl

/-- C2, counterexample: the claim says extraction clamps progress into
[0,100], but the extractor has no clamp: the raw snapshot
`{"progress": 150}` extracts to a canonical record whose progress is
150, which is not at most 100. -/
theorem C2_counterexample :
    extract_print_data (.vDict [("progress", .vInt 150)]) =
      .ok (some { progress := ((150 : Int) : ℚ), state := "", gcode_file := "",
                  bed_temp := 0, nozzle_temp := 0, remaining_time := 0, start_time := 0,
                  filament_type := .vStr "Unknown" }) ∧
    ¬(((150 : Int) : ℚ) ≤ 100) := ⟨rfl, by norm_num⟩

/-- C2, amended: extraction performs no clamping — the extracted
progress equals the raw numeric value unchanged (so values outside
[0,100] pass through), and an absent progress field defaults to 0. -/
theorem C2_amended (n : Int) :
    extract_print_data (.vDict [("progress", .vInt n)]) =
      .ok (some { progress := (n : ℚ), state := "", gcode_file := "",
                  bed_temp := 0, nozzle_temp := 0, remaining_time := 0, start_time := 0,
                  filament_type := .vStr "Unknown" }) ∧
    extract_print_data (.vDict [("state", .vStr "IDLE")]) =
      .ok (some { progress := 0, state := "IDLE", gcode_file := "",
                  bed_temp := 0, nozzle_temp := 0, remaining_time := 0, start_time := 0,
                  filament_type := .vStr "Unknown" }) := ⟨rfl, rfl⟩

/-- C3, counterexample: the claim says extraction is total even for a
non-mapping value under the `print` key, but
`{"print": "x"}` makes `extract_print_data` raise `AttributeError` at
`print_data.get('ams', {})` (line 209). -/
theorem C3_counterexample :
    extract_print_data (.vDict [("print", .vStr "x")]) = .error .attributeError := rfl

/-- C3, amended: extraction never fails and yields a record with every
field defined for every mapping snapshot whose `print` value is either
absent or itself a mapping; a truthy non-mapping `print` value instead
raises. -/
theorem C3_amended (es : List (String × PyVal))
    (h : dictLookup es "print" = Option.none ∨
      ∃ ps, dictLookup es "print" = some (.vDict ps)) :
    ∃ r, extract_print_data (.vDict es) = .ok r := by
  by_cases ht : pyTruthy (.vDict es) = false
  · exact ⟨Option.none, by simp [extract_print_data, ht]⟩
  · have hpd : ∃ l, (dictLookup es "print").getD (.vDict es) = .vDict l := by
      rcases h with h | ⟨ps, h⟩
      · exact ⟨es, by simp [h]⟩
      · exact ⟨ps, by simp [h]⟩
    obtain ⟨l, hl⟩ := hpd
    obtain ⟨q1, h1⟩ := safe_get_numeric_dict_ok l ["mc_percent", "progress", "percent"] 0
    obtain ⟨r1, h2⟩ := safe_get_string_dict_ok l ["gcode_state", "state", "status"] ""
    obtain ⟨r2, h3⟩ := safe_get_string_dict_ok l ["gcode_file", "filename", "file"] ""
    obtain ⟨q2, h4⟩ := safe_get_numeric_dict_ok l ["bed_temper", "bed_temp", "bed_temperature"] 0
    obtain ⟨q3, h5⟩ :=
      safe_get_numeric_dict_ok l ["nozzle_temper", "nozzle_temp", "nozzle_temperature"] 0
    obtain ⟨q4, h6⟩ :=
      safe_get_numeric_dict_ok l ["mc_remaining_time", "remaining_time", "time_remaining"] 0
    obtain ⟨q5, h7⟩ :=
      safe_get_numeric_dict_ok l ["gcode_start_time", "start_time", "print_start_time"] 0
    refine ⟨some { progress := q1, state := r1, gcode_file := r2, bed_temp := q2,
                   nozzle_temp := q3, remaining_time := q4, start_time := q5,
                   filament_type := extract_filament_info
                     ((dictLookup l "ams").getD (.vDict [])) (.vDict l) }, ?_⟩
    simp [extract_print_data, ht, dictGet, hl, h1, h2, h3, h4, h5, h6, h7]

/-- C3, witness: the amended statement at a concrete one-field
snapshot. -/
theorem C3_witness :
    ∃ r, extract_print_data (.vDict [("progress", .vInt 5)]) = .ok r :=
  C3_amended [("progress", .vInt 5)] (Or.inl rfl)

/-- C4: from the idle state, a record with state RUNNING and positive
progress emits exactly one StartEvent and activates the session;
reprocessing the identical record emits no further StartEvent; and over
records whose state lies in the canonical vocabulary, the start
transition fires exactly when the state is idle, the record state is
RUNNING and its progress is positive. -/
theorem C4 (s s2 : LoggerState) (now1 now2 now3 : Nat) (pd pd2 : PrintData)
    (hidle : s.is_printing = false) (hrun : pd.state = "RUNNING") (hpos : pd.progress > 0)
    (hvocab : pd2.state ∈ canonVocab) :
    countStart (processRecord s now1 pd).2 = 1 ∧
    (processRecord s now1 pd).1.is_printing = true ∧
    countStart (processRecord (processRecord s now1 pd).1 now2 pd).2 = 0 ∧
    (countStart (processRecord s2 now3 pd2).2 ≠ 0 ↔
      s2.is_printing = false ∧ pd2.state = "RUNNING" ∧ pd2.progress > 0) := by
  have hc : (updateTemps s pd).is_printing = false ∧
      (pd.state = "RUNNING" ∨ pd.state = "PRINTING") ∧ pd.progress > 0 :=
    ⟨by rw [updateTemps_is_printing]; exact hidle, Or.inl hrun, hpos⟩
  refine ⟨?_, ?_, ?_, ?_⟩
  · rw [processRecord_snd, countStart_append, phase1_of_start _ _ _ hc, countStart_phase2]
    rfl
  · rw [processRecord_is_printing, phase1_of_start _ _ _ hc]
    rfl
  · have htP : (processRecord s now1 pd).1.is_printing = true := by
      rw [processRecord_is_printing, phase1_of_start _ _ _ hc]
      rfl
    have hno : ¬((updateTemps (processRecord s now1 pd).1 pd).is_printing = false ∧
        (pd.state = "RUNNING" ∨ pd.state = "PRINTING") ∧ pd.progress > 0) := by
      rw [updateTemps_is_printing, htP]
      simp
    rw [processRecord_snd, countStart_append,
      countStart_phase1_of_not_start _ _ _ hno, countStart_phase2]
  · constructor
    · intro hne
      by_cases hcc : (updateTemps s2 pd2).is_printing = false ∧
          (pd2.state = "RUNNING" ∨ pd2.state = "PRINTING") ∧ pd2.progress > 0
      · refine ⟨?_, ?_, hcc.2.2⟩
        · rw [← updateTemps_is_printing s2 pd2]
          exact hcc.1
        · rcases hcc.2.1 with h | h
          · exact h
          · rw [h] at hvocab
            exact absurd hvocab (by decide)
      · exfalso
        rw [processRecord_snd, countStart_append,
          countStart_phase1_of_not_start _ _ _ hcc, countStart_phase2] at hne
        exact hne rfl
    · rintro ⟨ha, hb, hc2⟩
      have hcc : (updateTemps s2 pd2).is_printing = false ∧
          (pd2.state = "RUNNING" ∨ pd2.state = "PRINTING") ∧ pd2.progress > 0 :=
        ⟨by rw [updateTemps_is_printing]; exact ha, Or.inl hb, hc2⟩
      rw [processRecord_snd, countStart_append, phase1_of_start _ _ _ hcc, countStart_phase2]
      simp [start_print_tracking, countStart, isStartEv]

/-- C4, witness: the statement at the initial state and a RUNNING record
at 1 percent. -/
theorem C4_witness :
    countStart (processRecord initState 5 pdRun).2 = 1 ∧
    (processRecord initState 5 pdRun).1.is_printing = true ∧
    countStart (processRecord (processRecord initState 5 pdRun).1 8 pdRun).2 = 0 ∧
    (countStart (processRecord initState 9 pdRun).2 ≠ 0 ↔
      initState.is_printing = false ∧ pdRun.state = "RUNNING" ∧ pdRun.progress > 0) :=
  C4 initState initState 5 8 9 pdRun pdRun rfl rfl (by decide) (by decide)

/-- C5, counterexample: the claim says progress 100 yields an EndEvent
classified COMPLETED regardless of state, but from an active session the
record `pdFail100` (progress 100, state FAILED) yields the single end
event classified FAILED. -/
theorem C5_counterexample :
    countEnd (processRecord sActive 1090 pdFail100).2 = 1 ∧
    endFlags (processRecord sActive 1090 pdFail100).2 = [true] := ⟨rfl, rfl⟩

/-- C5, amended: while a session is active (with its start time set),
any end-condition record — progress at least 100 or a state in the end
vocabulary — yields exactly one EndEvent, classified FAILED exactly when
the state is FAILED or STOPPED and COMPLETED otherwise; in particular
progress 100 with state FAILED is classified FAILED, not COMPLETED. -/
theorem C5_amended (s : LoggerState) (t0 now : Nat) (pd : PrintData)
    (hact : s.is_printing = true) (hst : s.print_start_time = some t0)
    (hcond : pd.progress ≥ 100 ∨
      pd.state ∈ (["FINISH", "FINISHED", "FAILED", "PAUSED", "STOPPED"] : List String)) :
    countEnd (processRecord s now pd).2 = 1 ∧
    endFlags (processRecord s now pd).2 =
      [decide (pd.state = "FAILED" ∨ pd.state = "STOPPED")] := by
  have h1 : (updateTemps s pd).is_printing = true := by
    rw [updateTemps_is_printing, hact]
  have hnostart : ¬((updateTemps s pd).is_printing = false ∧
      (pd.state = "RUNNING" ∨ pd.state = "PRINTING") ∧ pd.progress > 0) := by
    rw [h1]
    simp
  have hp1 : phase1 (updateTemps s pd) now pd =
      ({ updateTemps s pd with is_printing := false },
       [Event.endEv (decide (pd.state = "FAILED" ∨ pd.state = "STOPPED")) now
         (mkPrintLog (updateTemps s pd) t0 now
           (decide (pd.state = "FAILED" ∨ pd.state = "STOPPED")))]) := by
    unfold phase1
    rw [if_neg hnostart, if_pos ⟨h1, hcond⟩]
    exact end_print_tracking_fires _ now _ t0 h1 (by rw [updateTemps_start_time, hst])
  refine ⟨?_, ?_⟩
  · rw [processRecord_snd, countEnd_append, hp1, countEnd_phase2]
    rfl
  · rw [processRecord_snd, endFlags_append, hp1, endFlags_phase2]
    rfl

/-- C5, witness: the amended statement at the concrete active state and
the FAILED record at 100 percent. -/
theorem C5_witness :
    countEnd (processRecord sActive 1090 pdFail100).2 = 1 ∧
    endFlags (processRecord sActive 1090 pdFail100).2 =
      [decide (pdFail100.state = "FAILED" ∨ pdFail100.state = "STOPPED")] :=
  C5_amended sActive 1000 1090 pdFail100 rfl rfl (by decide)

/-- C6, counterexample: the claim says a negative active-slot index
yields "Unknown", but Python floor division, floor modulus and negative
list indexing make `tray_now = "-1"` with one full bank resolve to that
bank's slot 3 type (here "B0S3"), not "Unknown". -/
theorem C6_counterexample :
    extract_filament_info amsNeg (.vDict []) = .vStr "B0S3" ∧
    pyEqStr (extract_filament_info amsNeg (.vDict [])) "Unknown" = false := ⟨rfl, rfl⟩

/-- C6, amended: filament resolution never hard-fails and follows the
priority: a non-empty direct filament field wins; otherwise with a
magazine present the index addresses bank `index div 4`, slot
`index mod 4` (index 6 with two banks of four resolves to bank 1 slot
2); no magazine yields "Unknown"; a non-numeric index or an in-step
out-of-bounds index (99 with one bank) yields "Unknown" — but a
negative index is resolved through Python semantics and can address a
real slot rather than yielding "Unknown". -/
theorem C6_amended (ams pd ams3 pd3 : PyVal) (d : String)
    (h1 : safe_get_string pd ["filament_type", "material", "filament"] "" = .ok d)
    (h2 : d ≠ "")
    (h3 : pyTruthy ams3 = false)
    (h4 : safe_get_string pd3 ["filament_type", "material", "filament"] "" = .ok "") :
    extract_filament_info ams pd = .vStr d ∧
    extract_filament_info ams3 pd3 = .vStr "Unknown" ∧
    extract_filament_info amsTwoBanks (.vDict []) = .vStr "B1S2" ∧
    extract_filament_info amsTray99 (.vDict []) = .vStr "Unknown" ∧
    extract_filament_info amsBadTray (.vDict []) = .vStr "Unknown" := by
  refine ⟨?_, ?_, rfl, rfl, rfl⟩
  · unfold extract_filament_info extract_filament_info_core
    rw [h1]
    simp [h2]
  · unfold extract_filament_info extract_filament_info_core
    rw [h4]
    simp [h3]

/-- C6, witness: the amended statement at concrete payloads — a direct
filament field, an absent magazine, and the two indexed magazines. -/
theorem C6_witness :
    extract_filament_info amsNeg pdDirectFilament = .vStr "PETG" ∧
    extract_filament_info (.vDict []) (.vDict []) = .vStr "Unknown" ∧
    extract_filament_info amsTwoBanks (.vDict []) = .vStr "B1S2" ∧
    extract_filament_info amsTray99 (.vDict []) = .vStr "Unknown" ∧
    extract_filament_info amsBadTray (.vDict []) = .vStr "Unknown" :=
  C6_amended amsNeg pdDirectFilament (.vDict []) (.vDict []) "PETG" rfl (by decide) rfl rfl

/-- C7: while a session is active, a ProgressEvent is emitted only when
the record progress differs from the remembered `last_progress`; when
the session stays active through the tick the emission happens exactly
when they differ; and two consecutive records with identical progress
from an active state yield at most one ProgressEvent. -/
theorem C7 (s : LoggerState) (now1 now2 : Nat) (pd pd1 pd2 : PrintData)
    (hact : s.is_printing = true) (heq : pd1.progress = pd2.progress) :
    (countProgress (processRecord s now1 pd).2 ≠ 0 → pd.progress ≠ s.last_progress) ∧
    ((processRecord s now1 pd).1.is_printing = true →
      (countProgress (processRecord s now1 pd).2 ≠ 0 ↔ pd.progress ≠ s.last_progress)) ∧
    countProgress (processRecord s now1 pd1).2 +
      countProgress (processRecord (processRecord s now1 pd1).1 now2 pd2).2 ≤ 1 := by
  refine ⟨?_, ?_, ?_⟩
  · intro hne
    rw [countProgress_processRecord] at hne
    by_cases h : (phase1 (updateTemps s pd) now1 pd).1.is_printing = true ∧
        pd.progress ≠ s.last_progress
    · exact h.2
    · rw [if_neg h] at hne
      exact absurd rfl hne
  · intro hrem
    rw [processRecord_is_printing] at hrem
    rw [countProgress_processRecord]
    constructor
    · intro hne
      by_cases h : (phase1 (updateTemps s pd) now1 pd).1.is_printing = true ∧
          pd.progress ≠ s.last_progress
      · exact h.2
      · rw [if_neg h] at hne
        exact absurd rfl hne
    · intro hdiff
      rw [if_pos ⟨hrem, hdiff⟩]
      exact one_ne_zero
  · rw [countProgress_processRecord, countProgress_processRecord]
    by_cases h1 : (phase1 (updateTemps s pd1) now1 pd1).1.is_printing = true ∧
        pd1.progress ≠ s.last_progress
    · rw [if_pos h1]
      have hlp : (processRecord s now1 pd1).1.last_progress = pd1.progress := by
        rw [processRecord_last_progress, if_pos h1]
      have hno : ¬((phase1 (updateTemps (processRecord s now1 pd1).1 pd2) now2 pd2).1.is_printing
          = true ∧ pd2.progress ≠ (processRecord s now1 pd1).1.last_progress) := by
        rintro ⟨_, hd⟩
        rw [hlp, ← heq] at hd
        exact hd rfl
      rw [if_neg hno]
    · rw [if_neg h1]
      split_ifs <;> omega

/-- C7, witness: the statement at the concrete active state whose
remembered progress is 40 and a RUNNING record at 41 percent. -/
theorem C7_witness :
    (countProgress (processRecord sActive 2000 pdRun41).2 ≠ 0 →
      pdRun41.progress ≠ sActive.last_progress) ∧
    ((processRecord sActive 2000 pdRun41).1.is_printing = true →
      (countProgress (processRecord sActive 2000 pdRun41).2 ≠ 0 ↔
        pdRun41.progress ≠ sActive.last_progress)) ∧
    countProgress (processRecord sActive 2000 pdRun41).2 +
      countProgress (processRecord (processRecord sActive 2000 pdRun41).1 2001 pdRun41).2 ≤ 1 :=
  C7 sActive 2000 2001 pdRun41 pdRun41 pdRun41 rfl rfl

/-- C8: finalizing an active session whose end time is exactly 90
seconds after its start time produces exactly one logged job with
durationMinutes = floor(90/60) = 1 and estimatedGrams = (1/60)*10 = 1/6. -/
theorem C8 (s : LoggerState) (t : Nat) (f : Bool)
    (hact : s.is_printing = true) (hst : s.print_start_time = some t) :
    (endLogs (end_print_tracking s (t + 90) f).2).map
      (fun L => (L.duration_minutes, L.filament_used_grams)) = [((1 : Int), (1 : ℚ)/6)] := by
  rw [end_print_tracking_fires s (t + 90) f t hact hst]
  have h0 : endLogs [Event.endEv f (t + 90) (mkPrintLog s t (t + 90) f)] =
      [mkPrintLog s t (t + 90) f] := rfl
  rw [h0, List.map_cons, List.map_nil]
  have hq : (((t + 90 : Nat) : ℚ) - (t : ℚ)) / 60 = (90 : ℚ) / 60 := by
    push_cast
    ring
  have htr : pyTrunc ((90 : ℚ) / 60) = 1 := by norm_num [pyTrunc]
  have hdur : (mkPrintLog s t (t + 90) f).duration_minutes = 1 := by
    show pyTrunc ((((t + 90 : Nat) : ℚ) - (t : ℚ)) / 60) = 1
    rw [hq, htr]
  have hgr : (mkPrintLog s t (t + 90) f).filament_used_grams = (1 : ℚ)/6 := by
    show estimate_filament_usage
      (pyTrunc ((((t + 90 : Nat) : ℚ) - (t : ℚ)) / 60)) = (1 : ℚ)/6
    rw [hq, htr]
    norm_num [estimate_filament_usage]
  rw [hdur, hgr]

/-- C8, witness: the statement at the concrete active state started at
epoch second 1000. -/
theorem C8_witness :
    (endLogs (end_print_tracking sActive (1000 + 90) false).2).map
      (fun L => (L.duration_minutes, L.filament_used_grams)) = [((1 : Int), (1 : ℚ)/6)] :=
  C8 sActive 1000 false rfl rfl

/-- C9: from the idle state, a single record with state RUNNING and
progress at least 100 takes the start branch of the mutually exclusive
if/elif pair — it emits one StartEvent, no EndEvent, and leaves the
session active, so only a subsequent record can end it. -/
theorem C9 (s : LoggerState) (now : Nat) (pd : PrintData)
    (hidle : s.is_printing = false) (hrun : pd.state = "RUNNING") (hp : pd.progress ≥ 100) :
    countStart (processRecord s now pd).2 = 1 ∧
    countEnd (processRecord s now pd).2 = 0 ∧
    (processRecord s now pd).1.is_printing = true := by
  have hc : (updateTemps s pd).is_printing = false ∧
      (pd.state = "RUNNING" ∨ pd.state = "PRINTING") ∧ pd.progress > 0 :=
    ⟨by rw [updateTemps_is_printing]; exact hidle, Or.inl hrun, by omega⟩
  refine ⟨?_, ?_, ?_⟩
  · rw [processRecord_snd, countStart_append, phase1_of_start _ _ _ hc, countStart_phase2]
    rfl
  · rw [processRecord_snd, countEnd_append, phase1_of_start _ _ _ hc, countEnd_phase2]
    rfl
  · rw [processRecord_is_printing, phase1_of_start _ _ _ hc]
    rfl

/-- C9, witness: the statement at the initial state and a RUNNING record
at 100 percent. -/
theorem C9_witness :
    countStart (processRecord initState 5 pdRun100).2 = 1 ∧
    countEnd (processRecord initState 5 pdRun100).2 = 0 ∧
    (processRecord initState 5 pdRun100).1.is_printing = true :=
  C9 initState 5 pdRun100 rfl rfl (by decide)

/-- C10: in every reducer state reachable from the initial state by
processing any record sequence, an active session has its start time
set, and invoking end tracking from an inactive state returns the state
unchanged and emits nothing — so the duration subtraction in
finalization is always performed on a defined start time. -/
theorem C10 (recs : List (Nat × PrintData)) (s : LoggerState) (now : Nat) (f : Bool)
    (hin : s.is_printing = false) :
    ((runSteps initState recs).is_printing = true →
      (runSteps initState recs).print_start_time.isSome = true) ∧
    end_print_tracking s now f = (s, []) := by
  constructor
  · exact sessionInv_runSteps recs initState (by intro h; simp [initState] at h)
  · exact end_print_tracking_no_op s now f hin

/-- C10, witness: the statement for a one-record run and the initial
(idle) state. -/
theorem C10_witness :
    ((runSteps initState [(5, pdRun)]).is_printing = true →
      (runSteps initState [(5, pdRun)]).print_start_time.isSome = true) ∧
    end_print_tracking initState 3 false = (initState, []) :=
  C10 [(5, pdRun)] initState 3 false rfl

end BambuLogger
